import Mathlib

/-!
Shallow embedding of the conversation core of the ict-mahagedara web client:
the chat page state machine (`src/frontend/ict_mahagedara/src/pages/Chat.tsx`)
and the endpoint selection of the chat API layer
(`src/ict_mahagedara/src/services/api.ts`).

The React component state is modelled as an explicit record; each event
handler becomes a pure state-transition function.  The remote HTTP service is
an external collaborator: its replies are passed in as explicit outcome
parameters (`Option String` for session creation, `Except SendFailure
SendResponse` for message sends).
-/

namespace ICT

/-- Message role, from the `role: 'user' | 'assistant'` union in the source. -/
inductive Role where
  | user
  | assistant
deriving DecidableEq, Repr

/-- One transcript entry: `{ role, content, isMarkdown }` (the `Message` type of
`src/frontend/ict_mahagedara/src/types/index.ts`). -/
structure Message where
  role : Role
  content : String
  isMarkdown : Bool
deriving DecidableEq, Repr

/-- Conversation mode, from `'session' | 'stateless'`. -/
inductive Mode where
  | session
  | stateless
deriving DecidableEq, Repr

/-- The component state of `Chat.tsx`: the five `useState` cells that the
conversation logic reads and writes (`sessionId`, `currentMode`, `messages`,
`inputMessage`, `isLoading`). -/
structure ChatState where
  sessionId : Option String
  currentMode : Mode
  messages : List Message
  inputMessage : String
  isLoading : Bool
deriving DecidableEq, Repr

/-- Response shape of `chatApi.sendMessage`:
`{ response: string; session_id?: string }`. -/
structure SendResponse where
  response : String
  session_id : Option String
deriving DecidableEq, Repr

/-- A rejected send: either a thrown `Error` carrying a message (the only kind
the API layer produces, via `new Error(error.detail || ...)` or a transport
`TypeError`), or some non-`Error` thrown value. -/
inductive SendFailure where
  | err (message : String)
  | nonError
deriving DecidableEq, Repr

/-- Outcome of one `chatApi.sendMessage` call, supplied by the remote
collaborator. -/
abbrev SendOutcome : Type := Except SendFailure SendResponse

/-- The error text shown for a failed send, from
`error instanceof Error ? error.message : 'Failed to send message'`
in `handleSubmit`. -/
def failureMessage : SendFailure → String
  | .err m => m
  | .nonError => "Failed to send message"

/-- `showError` in `Chat.tsx`: formats an error as an assistant entry
`❌ Error: ${message}` with plain-text rendering. -/
def errorEntry (message : String) : Message :=
  ⟨Role.assistant, "❌ Error: " ++ message, false⟩

/-- The welcome entry appended by a successful `initSession`. -/
def welcomeMessage : Message :=
  ⟨Role.assistant,
   "Hello! I\x27m Prasad K. Gamage, your AI learning assistant. How can I help you today?",
   false⟩

/-- The entry appended by a failed `initSession`
(`showError('Failed to initialize chat session')`). -/
def initErrorMessage : Message :=
  errorEntry "Failed to initialize chat session"

/-- The informational entry appended on a switch to stateless mode. -/
def statelessInfoMessage : Message :=
  ⟨Role.assistant, "Stateless mode activated. Each message will be independent.", false⟩

/-- JavaScript truthiness of an optional string session identifier, as tested by
`if (currentMode === 'session' && response.session_id)`: `undefined` and the
empty string are falsy. -/
def isTruthyId : Option String → Bool
  | some s => s != ""
  | none => false

/-- `initSession` in `Chat.tsx` (lines 45-54): `co = some sid` models
`chatApi.createSession()` resolving with `{ session_id: sid }`, upon which the
handle is stored and the welcome entry appended; `co = none` models a rejected
creation, upon which only the error entry is appended — the catch block does
NOT touch `sessionId`. -/
def initSession (st : ChatState) (co : Option String) : ChatState :=
  match co with
  | some sid =>
      { st with
        sessionId := some sid
        messages := st.messages ++ [welcomeMessage] }
  | none =>
      { st with messages := st.messages ++ [initErrorMessage] }

/-- The state written synchronously at the top of `handleModeChange`:
`setCurrentMode(mode); setMessages([])`. -/
def modeSwitchClear (st : ChatState) (mode : Mode) : ChatState :=
  { st with currentMode := mode, messages := [] }

/-- `handleModeChange` in `Chat.tsx` (lines 68-78): set the mode, clear the
transcript, then either re-initialize the session (session mode) or clear the
handle and append the informational entry (stateless mode).  `co` is the
session-creation outcome consumed when `mode = session`. -/
def handleModeChange (st : ChatState) (mode : Mode) (co : Option String) : ChatState :=
  let st1 := modeSwitchClear st mode
  match mode with
  | .session => initSession st1 co
  | .stateless =>
      { st1 with
        sessionId := none
        messages := st1.messages ++ [statelessInfoMessage] }

/-- The values `handleSubmit` captures before dispatching the request: the
trimmed user text, and the `sessionId` and `currentMode` closed over at
submission time (they are passed to `chatApi.sendMessage` and consulted again
after the `await`). -/
structure SubmitCtx where
  userMessage : String
  sessionId : Option String
  mode : Mode
deriving DecidableEq, Repr

/-- ECMAScript white space and line terminators, the character class stripped
by `String.prototype.trim`: TAB, VT, FF, SP, NBSP, ZWNBSP, LF, CR, LS, PS
(other Unicode `Zs` members are omitted as irrelevant to the claims). -/
def isJsWhitespace (c : Char) : Bool :=
  c.toNat = 0x9 || c.toNat = 0xB || c.toNat = 0xC || c.toNat = 0x20 ||
  c.toNat = 0xA0 || c.toNat = 0xFEFF || c.toNat = 0xA || c.toNat = 0xD ||
  c.toNat = 0x2028 || c.toNat = 0x2029

/-- JavaScript `String.prototype.trim`: drop leading and trailing white
space. -/
def jsTrim (s : String) : String :=
  String.mk (((s.data.dropWhile isJsWhitespace).reverse.dropWhile isJsWhitespace).reverse)

/-- The endpoint string built by `chatApi.sendMessage` in `api.ts`
(lines 89-111).  A `null` handle is interpolated by the template literal as the
literal text `null`, so session mode with an absent handle targets
`/chat/session/null`. -/
def sendMessageEndpoint (sessionId : Option String) (mode : Mode) : String :=
  match mode with
  | .session => "/chat/session/" ++ (match sessionId with | some s => s | none => "null")
  | .stateless => "/chat/stateless"

/-- The synchronous prefix of `handleSubmit` (lines 85-93): the guard
`if (!inputMessage.trim() || isLoading) return;`, then clear the input buffer,
append the user entry, and raise the in-flight flag.  Returns the updated
state and, when the guard passes, the captured submission context; `none`
means the call returned early without dispatching. -/
def submitStart (st : ChatState) : ChatState × Option SubmitCtx :=
  if jsTrim st.inputMessage = "" ∨ st.isLoading = true then
    (st, none)
  else
    let userMessage := jsTrim st.inputMessage
    ({ st with
        inputMessage := ""
        messages := st.messages ++ [⟨Role.user, userMessage, false⟩]
        isLoading := true },
     some ⟨userMessage, st.sessionId, st.currentMode⟩)

/-- The continuation of `handleSubmit` after `await chatApi.sendMessage`
(lines 94-107): on success, adopt the returned session identifier when the
captured mode is session and the identifier is truthy, then append the
formatted assistant entry; on failure, append the plain-text error entry; in
both cases the `finally` block lowers the in-flight flag. -/
def submitFinish (ctx : SubmitCtx) (o : SendOutcome) (st : ChatState) : ChatState :=
  let st1 :=
    match o with
    | .ok r =>
        let st1 :=
          if ctx.mode = Mode.session ∧ isTruthyId r.session_id = true then
            { st with sessionId := r.session_id }
          else st
        { st1 with messages := st1.messages ++ [(⟨Role.assistant, r.response, true⟩ : Message)] }
    | .error f =>
        { st with messages := st.messages ++ [errorEntry (failureMessage f)] }
  { st1 with isLoading := false }

/-- A whole `handleSubmit` call, with the send outcome `o` supplied by the
remote collaborator, run to completion with no intervening event. -/
def handleSubmit (st : ChatState) (o : SendOutcome) : ChatState :=
  match submitStart st with
  | (st1, some ctx) => submitFinish ctx o st1
  | (st1, none) => st1

/-- User-driven events of the conversation, at event-loop granularity: typing
into the input box, a completed submission, and a mode switch. -/
inductive Event where
  | setInput (s : String)
  | submit (o : SendOutcome)
  | switchMode (m : Mode) (co : Option String)

/-- One event step of the chat page. -/
def step (st : ChatState) : Event → ChatState
  | .setInput s => { st with inputMessage := s }
  | .submit o => handleSubmit st o
  | .switchMode m co => handleModeChange st m co

/-- Run a list of events. -/
def run (st : ChatState) (evs : List Event) : ChatState :=
  evs.foldl step st

/-- The component state at mount, before `checkAuth` runs: no handle, session
mode, empty transcript, empty input, not loading. -/
def initialState : ChatState :=
  ⟨none, Mode.session, [], "", false⟩

/-- A state is reachable when it arises from the mount-time `initSession`
(with some creation outcome `co`) followed by any sequence of user events. -/
def Reachable (st : ChatState) : Prop :=
  ∃ co evs, run (initSession initialState co) evs = st

/-! Basic unfolding lemmas for the two halves of `handleSubmit`. -/

lemma submitStart_rejects (st : ChatState)
    (h : jsTrim st.inputMessage = "" ∨ st.isLoading = true) :
    submitStart st = (st, none) := by
  unfold submitStart
  rw [if_pos h]

lemma submitStart_accepts (st : ChatState)
    (hne : jsTrim st.inputMessage ≠ "") (hnl : st.isLoading = false) :
    submitStart st =
      ({ st with
          inputMessage := ""
          messages := st.messages ++ [⟨Role.user, jsTrim st.inputMessage, false⟩]
          isLoading := true },
       some ⟨jsTrim st.inputMessage, st.sessionId, st.currentMode⟩) := by
  unfold submitStart
  rw [if_neg (by simp [hne, hnl])]

lemma handleSubmit_rejects (st : ChatState) (o : SendOutcome)
    (h : jsTrim st.inputMessage = "" ∨ st.isLoading = true) :
    handleSubmit st o = st := by
  unfold handleSubmit
  rw [submitStart_rejects st h]

lemma handleSubmit_accepts (st : ChatState) (o : SendOutcome)
    (hne : jsTrim st.inputMessage ≠ "") (hnl : st.isLoading = false) :
    handleSubmit st o =
      submitFinish ⟨jsTrim st.inputMessage, st.sessionId, st.currentMode⟩ o
        { st with
            inputMessage := ""
            messages := st.messages ++ [⟨Role.user, jsTrim st.inputMessage, false⟩]
            isLoading := true } := by
  unfold handleSubmit
  rw [submitStart_accepts st hne hnl]

lemma submitFinish_isLoading (ctx : SubmitCtx) (o : SendOutcome) (st : ChatState) :
    (submitFinish ctx o st).isLoading = false := rfl

lemma submitFinish_currentMode (ctx : SubmitCtx) (o : SendOutcome) (st : ChatState) :
    (submitFinish ctx o st).currentMode = st.currentMode := by
  cases o with
  | ok r =>
      by_cases hc : ctx.mode = Mode.session ∧ isTruthyId r.session_id = true <;>
        simp [submitFinish, hc]
  | error f => rfl

lemma submitFinish_messages (ctx : SubmitCtx) (o : SendOutcome) (st : ChatState) :
    (submitFinish ctx o st).messages =
      st.messages ++
        [match o with
         | .ok r => (⟨Role.assistant, r.response, true⟩ : Message)
         | .error f => errorEntry (failureMessage f)] := by
  cases o with
  | ok r =>
      by_cases hc : ctx.mode = Mode.session ∧ isTruthyId r.session_id = true <;>
        simp [submitFinish, hc]
  | error f => rfl

lemma submitFinish_sessionId (ctx : SubmitCtx) (o : SendOutcome) (st : ChatState) :
    (submitFinish ctx o st).sessionId =
      (match o with
       | .ok r =>
          if ctx.mode = Mode.session ∧ isTruthyId r.session_id = true then r.session_id
          else st.sessionId
       | .error _ => st.sessionId) := by
  cases o with
  | ok r =>
      by_cases hc : ctx.mode = Mode.session ∧ isTruthyId r.session_id = true <;>
        simp [submitFinish, hc]
  | error f => rfl

/-- C1: for every `submit(userText)` whose preconditions hold (non-empty
trimmed input, `RequestState` false), the in-flight flag is false again once
the submission completes, on the success path and on the failure path alike
(the `finally` block of `handleSubmit`). -/
theorem submit_resets_requestState (st : ChatState) (o : SendOutcome)
    (hne : jsTrim st.inputMessage ≠ "") (hnl : st.isLoading = false) :
    (handleSubmit st o).isLoading = false := by
  rw [handleSubmit_accepts st o hne hnl, submitFinish_isLoading]

theorem submit_resets_requestState_witness :
    jsTrim "hi" ≠ "" ∧
    (⟨none, Mode.session, [], "hi", false⟩ : ChatState).isLoading = false ∧
    (handleSubmit ⟨none, Mode.session, [], "hi", false⟩
        (Except.error (SendFailure.err "boom"))).isLoading = false :=
  ⟨by decide, rfl, submit_resets_requestState _ _ (by decide) rfl⟩

/-- C2: every completed `submit` with valid preconditions appends, after the
User entry, exactly one Assistant entry: the response text flagged as
formatted on success, or `❌ Error:` followed by the human-readable message
derived from the failure, flagged as plain text, on failure.  `handleSubmit`
is a total function on both outcome branches, so no failure escapes the
component. -/
theorem submit_appends_single_assistant_entry (st : ChatState) (o : SendOutcome)
    (hne : jsTrim st.inputMessage ≠ "") (hnl : st.isLoading = false) :
    (handleSubmit st o).messages =
      st.messages ++
        [⟨Role.user, jsTrim st.inputMessage, false⟩,
         match o with
         | .ok r => (⟨Role.assistant, r.response, true⟩ : Message)
         | .error f => errorEntry (failureMessage f)] := by
  rw [handleSubmit_accepts st o hne hnl, submitFinish_messages]
  simp

theorem submit_appends_single_assistant_entry_witness :
    jsTrim " hi " ≠ "" ∧
    (handleSubmit ⟨none, Mode.stateless, [], " hi ", false⟩
        (Except.error SendFailure.nonError)).messages
      = [⟨Role.user, "hi", false⟩, errorEntry "Failed to send message"] :=
  ⟨by decide, by
    rw [submit_appends_single_assistant_entry _ _ (by decide) rfl]
    decide⟩

/-- C3: in Session mode a successful send whose response carries a (truthy)
session identifier stores that identifier, and a send from a state holding an
identifier targets `/chat/session/` + that identifier, so subsequent sends use
the new identifier; in Stateless mode no identifier is read or stored from the
response and the dispatched request targets `/chat/stateless`. -/
theorem session_id_adoption_and_endpoints :
    (∀ (st : ChatState) (r : SendResponse) (sid : String),
        st.currentMode = Mode.session → jsTrim st.inputMessage ≠ "" → st.isLoading = false →
        r.session_id = some sid → sid ≠ "" →
        (handleSubmit st (Except.ok r)).sessionId = some sid) ∧
    (∀ (st : ChatState) (s : String),
        st.currentMode = Mode.session → st.sessionId = some s →
        jsTrim st.inputMessage ≠ "" → st.isLoading = false →
        (submitStart st).2 = some ⟨jsTrim st.inputMessage, some s, Mode.session⟩ ∧
        sendMessageEndpoint (some s) Mode.session = "/chat/session/" ++ s) ∧
    (∀ (st : ChatState) (o : SendOutcome),
        st.currentMode = Mode.stateless → jsTrim st.inputMessage ≠ "" → st.isLoading = false →
        (handleSubmit st o).sessionId = st.sessionId ∧
        (submitStart st).2 = some ⟨jsTrim st.inputMessage, st.sessionId, Mode.stateless⟩ ∧
        sendMessageEndpoint st.sessionId Mode.stateless = "/chat/stateless") := by
  refine ⟨?_, ?_, ?_⟩
  · intro st r sid hm hne hnl hr hsid
    rw [handleSubmit_accepts st _ hne hnl, submitFinish_sessionId]
    simp [hm, hr, isTruthyId, hsid]
  · intro st s hm hs hne hnl
    refine ⟨?_, rfl⟩
    rw [submitStart_accepts st hne hnl]
    simp [hm, hs]
  · intro st o hm hne hnl
    refine ⟨?_, ?_, rfl⟩
    · rw [handleSubmit_accepts st _ hne hnl, submitFinish_sessionId]
      cases o with
      | ok r => simp [hm]
      | error f => rfl
    · rw [submitStart_accepts st hne hnl]
      simp [hm]

theorem session_id_adoption_and_endpoints_witness :
    (handleSubmit ⟨some "S1", Mode.session, [], "hi", false⟩
        (Except.ok ⟨"yo", some "S2"⟩)).sessionId = some "S2" ∧
    (submitStart ⟨some "S2", Mode.session, [], "again", false⟩).2
      = some ⟨"again", some "S2", Mode.session⟩ ∧
    (handleSubmit ⟨none, Mode.stateless, [], "hi", false⟩
        (Except.ok ⟨"yo", some "S9"⟩)).sessionId = none :=
  ⟨session_id_adoption_and_endpoints.1 _ _ "S2" rfl (by decide) rfl rfl (by decide),
   (session_id_adoption_and_endpoints.2.1 _ "S2" rfl rfl (by decide) rfl).1,
   (session_id_adoption_and_endpoints.2.2 _ _ rfl (by decide) rfl).1⟩

/-- C4: a submit whose trimmed input is empty (empty or whitespace-only text)
is a no-op, and a submit while the in-flight flag is set is rejected; in both
cases the whole state — transcript, in-flight flag, and session handle — is
unchanged. -/
theorem submit_rejected_is_noop (st : ChatState) (o : SendOutcome) :
    (jsTrim st.inputMessage = "" → handleSubmit st o = st) ∧
    (st.isLoading = true → handleSubmit st o = st) :=
  ⟨fun h => handleSubmit_rejects st o (Or.inl h),
   fun h => handleSubmit_rejects st o (Or.inr h)⟩

theorem submit_rejected_is_noop_witness :
    jsTrim "   " = "" ∧
    handleSubmit ⟨none, Mode.session, [], "   ", false⟩ (Except.ok ⟨"yo", some "S2"⟩)
      = ⟨none, Mode.session, [], "   ", false⟩ ∧
    handleSubmit ⟨some "S1", Mode.session, [], "hi", true⟩ (Except.ok ⟨"yo", some "S2"⟩)
      = ⟨some "S1", Mode.session, [], "hi", true⟩ :=
  ⟨by decide, (submit_rejected_is_noop _ _).1 (by decide),
   (submit_rejected_is_noop _ _).2 rfl⟩

/-- C5, counterexample: from the reachable state in which the mount-time
session initialization succeeded with handle `S1`, re-selecting Session mode
with a failing re-initialization ends with the stale handle `S1` still stored
and the error entry appended — neither "handle stored and welcome appended"
nor "no handle and error appended", refuting the claimed dichotomy. -/
theorem session_switch_dichotomy_cex :
    Reachable (handleModeChange (initSession initialState (some "S1")) Mode.session none) ∧
    ¬ (((handleModeChange (initSession initialState (some "S1")) Mode.session none).sessionId.isSome
          = true ∧
        welcomeMessage
          ∈ (handleModeChange (initSession initialState (some "S1")) Mode.session none).messages) ∨
       ((handleModeChange (initSession initialState (some "S1")) Mode.session none).sessionId = none ∧
        initErrorMessage
          ∈ (handleModeChange (initSession initialState (some "S1")) Mode.session none).messages)) :=
  ⟨⟨some "S1", [Event.switchMode Mode.session none], rfl⟩, by decide⟩

/-- C5, amended: every switch to Session mode clears the transcript and
appends exactly one entry — the welcome entry on success (with the returned
handle stored), or the error entry on failure; on failure the SessionHandle is
left unchanged rather than cleared, so it is absent after a failed switch
exactly when it was absent before (a previously acquired handle may persist
alongside the error entry). -/
theorem session_switch_outcomes (st : ChatState) (co : Option String) :
    (handleModeChange st Mode.session co).messages
      = [match co with | some _ => welcomeMessage | none => initErrorMessage] ∧
    (handleModeChange st Mode.session co).sessionId
      = (match co with | some sid => some sid | none => st.sessionId) := by
  cases co <;> exact ⟨rfl, rfl⟩

/-- C6, counterexample: a reachable state reached by a session-initialization
failure (re-selecting Session mode after a successful mount-time
initialization with handle `S1`) still holds the handle `S1`, refuting the
claim that the handle is cleared on every session-initialization failure. -/
theorem handle_not_cleared_on_init_failure_cex :
    Reachable (handleModeChange (initSession initialState (some "S1")) Mode.session none) ∧
    (handleModeChange (initSession initialState (some "S1")) Mode.session none).currentMode
      = Mode.session ∧
    (handleModeChange (initSession initialState (some "S1")) Mode.session none).messages
      = [initErrorMessage] ∧
    (handleModeChange (initSession initialState (some "S1")) Mode.session none).sessionId
      = some "S1" ∧
    (handleModeChange (initSession initialState (some "S1")) Mode.session none).sessionId ≠ none :=
  ⟨⟨some "S1", [Event.switchMode Mode.session none], rfl⟩, rfl, by decide, rfl, by decide⟩

/-- C6, amended: the handle/mode relation holds per operation, not as a state
invariant — every mode switch to Stateless clears the SessionHandle at the
moment of the switch, while a session-initialization failure leaves the handle
unchanged rather than clearing it; and the clearing is not preserved by
in-flight completions: a Session-mode submit that completes after the switch
adopts a returned identifier through its captured mode, leaving Stateless mode
with a stored handle. -/
theorem sessionHandle_clearing_behavior (st : ChatState) (co : Option String) :
    (handleModeChange st Mode.stateless co).sessionId = none ∧
    (initSession st none).sessionId = st.sessionId ∧
    (submitFinish ⟨"hello", some "S1", Mode.session⟩ (Except.ok ⟨"Hi!", some "S2"⟩)
        (handleModeChange st Mode.stateless co)).currentMode = Mode.stateless ∧
    (submitFinish ⟨"hello", some "S1", Mode.session⟩ (Except.ok ⟨"Hi!", some "S2"⟩)
        (handleModeChange st Mode.stateless co)).sessionId = some "S2" := by
  refine ⟨rfl, rfl, ?_, ?_⟩
  · rw [submitFinish_currentMode]
    rfl
  · rw [submitFinish_sessionId]
    simp [isTruthyId]

/-- C7: every mode switch — to either mode, including re-selecting the current
one — clears the transcript unconditionally: the state written synchronously
at the top of `handleModeChange` has an empty transcript, and the overall
result never depends on the pre-switch transcript. -/
theorem mode_switch_clears_transcript (st : ChatState) (m : Mode) (co : Option String) :
    (modeSwitchClear st m).messages = [] ∧
    handleModeChange st m co = handleModeChange { st with messages := [] } m co := by
  refine ⟨rfl, ?_⟩
  cases m <;> cases co <;> rfl

/-- C8: every switch to Stateless mode clears the SessionHandle and leaves the
freshly cleared transcript holding exactly the single informational entry. -/
theorem stateless_switch_effect (st : ChatState) (co : Option String) :
    (handleModeChange st Mode.stateless co).sessionId = none ∧
    (handleModeChange st Mode.stateless co).messages = [statelessInfoMessage] :=
  ⟨rfl, rfl⟩

/-- C9: from a Session-mode state with an absent handle (as left by a
session-initialization failure), a valid submit still dispatches a
session-scoped request — the captured handle is `none` (the request carries no
session identifier) and the endpoint is `/chat/session/null` (the literal
interpolation of the null handle), not the stateless endpoint. -/
theorem absent_handle_session_send (st : ChatState)
    (hm : st.currentMode = Mode.session) (hs : st.sessionId = none)
    (hne : jsTrim st.inputMessage ≠ "") (hnl : st.isLoading = false) :
    (submitStart st).2 = some ⟨jsTrim st.inputMessage, none, Mode.session⟩ ∧
    sendMessageEndpoint none Mode.session = "/chat/session/null" ∧
    sendMessageEndpoint none Mode.session ≠ "/chat/stateless" := by
  refine ⟨?_, rfl, by decide⟩
  rw [submitStart_accepts st hne hnl]
  simp [hm, hs]

theorem absent_handle_session_send_witness :
    (initSession initialState none).sessionId = none ∧
    (submitStart { initSession initialState none with inputMessage := "hello" }).2
      = some ⟨"hello", none, Mode.session⟩ ∧
    sendMessageEndpoint none Mode.session = "/chat/session/null" :=
  ⟨rfl, (absent_handle_session_send _ rfl rfl (by decide) rfl).1, rfl⟩

/-- C10: a mode switch is not gated by the in-flight flag — `handleModeChange`
neither reads nor writes `isLoading`, so it acts identically while a submit is
in flight — and in the interleaving "submit dispatched in Session mode, switch
to Stateless, response arrives", the completion appends its Assistant entry to
the post-switch transcript, leaving an entry from the pre-switch conversation
after the informational entry. -/
theorem mode_switch_during_inflight (st : ChatState) (m : Mode) (co : Option String) (b : Bool) :
    handleModeChange { st with isLoading := b } m co
      = { handleModeChange st m co with isLoading := b } ∧
    (submitStart { initSession initialState (some "S1") with inputMessage := "hello" }).1.isLoading
      = true ∧
    (submitStart { initSession initialState (some "S1") with inputMessage := "hello" }).2
      = some ⟨"hello", some "S1", Mode.session⟩ ∧
    (submitFinish ⟨"hello", some "S1", Mode.session⟩ (Except.ok ⟨"Hi!", none⟩)
        (handleModeChange
          (submitStart { initSession initialState (some "S1") with inputMessage := "hello" }).1
          Mode.stateless none)).messages
      = [statelessInfoMessage, ⟨Role.assistant, "Hi!", true⟩] := by
  refine ⟨?_, by decide, by decide, by decide⟩
  cases m <;> cases co <;> rfl

end ICT
